import Mathlib

/-!
Shallow embedding of the cross-process log aggregation subsystem of
`angrmanagement/data/log.py`, together with theorems settling the claims
about its specification.

Conventions of the embedding:
* Python's dynamically typed values that flow into `LogDumpHandler.instance`
  are modelled by `PyVal` (an int or an `Instance` object), since
  `initialize` passes an int where an `Instance` is annotated.
* `datetime.fromtimestamp` is modelled as carrying the numeric instant
  unchanged (the instant is opaque to the subsystem: no arithmetic is done
  on it).
* `datetime.strftime` is an external library function; theorems are
  universally quantified over it (`strftime : Nat → String → String`), and
  `strftimeSample` is one concrete instantiation used to evaluate closed
  statements.
* `Conf.log_timestamp_format` is the globally configured pattern; it is
  passed to each formatting call as a `String` (a configured, non-None
  pattern), and compared against the cached key of type `Option String`
  exactly as `Conf.log_timestamp_format != self._cache_key` compares a
  string against a possibly-None attribute.
* `logging.root.handlers` is a `List Handler`, index 0 being the front;
  `list.insert(0, x)` on that list is `x :: hs`.
-/

/-- Python's `logging.NOTSET` level constant. -/
def NOTSET : Int := 0

/-- `LogTimeStamp` of `log.py`: the instant (`self._ts`, stored by
`datetime.fromtimestamp(unix_timestamp)` and modelled as the raw instant),
plus the two cache attributes set to `None` by `__init__`. -/
structure LogTimeStamp where
  ts : Nat
  cache_key : Option String
  cache_str : Option String
deriving DecidableEq, Repr

/-- `LogTimeStamp.__init__(unix_timestamp)`. -/
def LogTimeStamp.make (unix_timestamp : Nat) : LogTimeStamp :=
  { ts := unix_timestamp, cache_key := none, cache_str := none }

/-- `LogTimeStamp.__str__`, instrumented: given the external `strftime`
function and the currently configured pattern `fmt`
(`Conf.log_timestamp_format`, non-None), returns the value returned
(`self._cache_str`, possibly None), the post-state, and whether the branch
that recomputes `strftime` was taken.  Mirrors the source line by line:
the guard is `Conf.log_timestamp_format != self._cache_key`, the branch
assigns only `self._cache_str`, and the return is `self._cache_str`. -/
def LogTimeStamp.str (strftime : Nat → String → String) (fmt : String)
    (t : LogTimeStamp) : Option String × LogTimeStamp × Bool :=
  if some fmt ≠ t.cache_key then
    let t2 : LogTimeStamp := { t with cache_str := some (strftime t.ts fmt) }
    (t2.cache_str, t2, true)
  else
    (t.cache_str, t, false)

/-- Iterate `LogTimeStamp.str` over a sequence of configured patterns (one
pattern per call), collecting the returned values. -/
def LogTimeStamp.strRuns (strftime : Nat → String → String) :
    LogTimeStamp → List String → List (Option String) × LogTimeStamp
  | t, [] => ([], t)
  | t, fmt :: fmts =>
    let r := LogTimeStamp.str strftime fmt t
    let rest := LogTimeStamp.strRuns strftime r.2.1 fmts
    (r.1 :: rest.1, rest.2)

/-- A concrete stand-in for the external `strftime`, used only to evaluate
closed statements on concrete inputs. -/
def strftimeSample (u : Nat) (fmt : String) : String :=
  fmt ++ "-" ++ toString u

/-- `LogRecord` of `log.py`: level, timestamp, source, content, with the
timestamp built by `LogTimeStamp(unix_timestamp)`. -/
structure LogRecord where
  timestamp : LogTimeStamp
  level : Int
  source : String
  content : String
deriving DecidableEq, Repr

/-- `LogRecord.__init__(level, unix_timestamp, source, content)`. -/
def LogRecord.make (level : Int) (unix_timestamp : Nat)
    (source content : String) : LogRecord :=
  { timestamp := LogTimeStamp.make unix_timestamp, level := level,
    source := source, content := content }

/-- The fields of a `logging.LogRecord` that the subsystem reads:
`levelno`, `created`, `name`, and the message text that
`Handler.format(record)` renders. -/
structure PyLogRecord where
  levelno : Int
  created : Nat
  name : String
  msg : String
deriving DecidableEq, Repr

/-- A concrete stand-in for the external `Handler.format`, used only to
evaluate closed statements on concrete inputs. -/
def formatSample (r : PyLogRecord) : String := r.msg

/-- The `Instance` object as the subsystem uses it: `instance.log` is the
Log Sink (an appendable list with `am_event` notifications); appended
records and fired notification payloads are recorded separately so the
claims about them can be stated. -/
structure Instance where
  log : List LogRecord
  notifications : List LogRecord
deriving DecidableEq, Repr

/-- A dynamically typed Python value bound to `LogDumpHandler.instance`:
either an `Instance` object or an int (as happens when `initialize`
passes `level` positionally). -/
inductive PyVal where
  | intVal (n : Int)
  | instVal (i : Instance)
deriving DecidableEq, Repr

/-- `LogDumpHandler`: its `instance` attribute (named `inst` here because
`instance` is a Lean keyword) and the handler level set by
`super().__init__(level=level)`. -/
structure LogDumpHandler where
  inst : PyVal
  level : Int
deriving DecidableEq, Repr

/-- `LogDumpHandler.__init__(instance, level)`; the source gives `level`
the default `logging.NOTSET`, which callers relying on the default pass
explicitly here. -/
def LogDumpHandler.make (inst : PyVal) (level : Int) : LogDumpHandler :=
  { inst := inst, level := level }

/-- One sink operation performed by `LogDumpHandler.emit`, in order:
`instance.log.append(log_record)` or `instance.log.am_event(log_record)`. -/
inductive SinkOp where
  | append (r : LogRecord)
  | notify (r : LogRecord)
deriving DecidableEq, Repr

/-- `LogDumpHandler.emit(record)` on a well-typed `Instance`: builds
`LogRecord(record.levelno, record.created, record.name, self.format(record))`,
appends it to `instance.log`, then fires `instance.log.am_event` with it.
Returns the updated instance and the ordered list of sink operations. -/
def LogDumpHandler.emitRecord (formatf : PyLogRecord → String)
    (i : Instance) (record : PyLogRecord) : Instance × List SinkOp :=
  let log_record :=
    LogRecord.make record.levelno record.created record.name (formatf record)
  let i1 : Instance := { i with log := i.log ++ [log_record] }
  let i2 : Instance :=
    { i1 with notifications := i1.notifications ++ [log_record] }
  (i2, [SinkOp.append log_record, SinkOp.notify log_record])

/-- `LogDumpHandler.emit(record)` under Python's dynamic typing: when
`self.instance` is an int (as bound by `initialize`), evaluating
`self.instance.log` raises `AttributeError`. -/
def LogDumpHandler.emitDyn (formatf : PyLogRecord → String) (v : PyVal)
    (record : PyLogRecord) : Except String (PyVal × List SinkOp) :=
  match v with
  | PyVal.intVal _ =>
    Except.error "AttributeError: int object has no attribute log"
  | PyVal.instVal i =>
    let r := LogDumpHandler.emitRecord formatf i record
    Except.ok (PyVal.instVal r.1, r.2)

/-- The `QueueListener._monitor` loop draining the shared queue: each
dequeued record is handed to the `LogDumpHandler`; an exception while
handling a record escapes the loop (the stdlib loop catches only
`queue.Empty`), so the remaining records are not processed. -/
def QueueListener.drain (formatf : PyLogRecord → String) :
    PyVal → List PyLogRecord → Except String PyVal
  | v, [] => Except.ok v
  | v, r :: rest =>
    match LogDumpHandler.emitDyn formatf v r with
    | Except.error e => Except.error e
    | Except.ok (v2, _) => QueueListener.drain formatf v2 rest

/-- `initialize` constructs its listener as
`QueueListener(queue, LogDumpHandler(level))` without passing
`respect_handler_level`, so the stdlib default `False` applies. -/
def QueueListener.respectHandlerLevel : Bool := false

/-- The stdlib `QueueListener.handle` level gate for one handler: with
`respect_handler_level = False` every record is processed regardless of
`record.levelno` and of the handler's own level. -/
def queueListenerProcesses (h : LogDumpHandler) (r : PyLogRecord) : Bool :=
  if QueueListener.respectHandlerLevel then decide (h.level ≤ r.levelno)
  else true

/-- An entry of `logging.root.handlers`: an `AMQueueHandler` (carrying the
id of the queue it was constructed with) or any other handler (an opaque
tag).  `isinstance(i, AMQueueHandler)` holds exactly for the first form. -/
inductive Handler where
  | amQueue (queueId : Nat)
  | other (tag : Nat)
deriving DecidableEq, Repr

/-- `isinstance(h, AMQueueHandler)`. -/
def Handler.isAMQueueHandler : Handler → Bool
  | Handler.amQueue _ => true
  | Handler.other _ => false

/-- `install_queue_handler(queue)` acting on `logging.root.handlers`: if
no handler in the list is an `AMQueueHandler`, insert `AMQueueHandler(queue)`
at index 0 (`handlers.insert(0, ...)`, i.e. cons); otherwise do nothing. -/
def install_queue_handler (queue : Nat) (handlers : List Handler) :
    List Handler :=
  if (handlers.any Handler.isAMQueueHandler) = false then
    Handler.amQueue queue :: handlers
  else handlers

/-- Number of `AMQueueHandler`s in a handler list. -/
def countAM (handlers : List Handler) : Nat :=
  (handlers.filter Handler.isAMQueueHandler).length

/-- `install_queue_handler` called `n` times, the `k`-th call using queue
`qseq k`. -/
def installN (qseq : Nat → Nat) : Nat → List Handler → List Handler
  | 0, hs => hs
  | Nat.succ k, hs => installN qseq k (install_queue_handler (qseq k) hs)

/-- A started `QueueListener`: the queue it consumes and the single
handler it forwards to. -/
structure Listener where
  queueId : Nat
  handler : LogDumpHandler
deriving DecidableEq, Repr

/-- The process-wide state that `initialize` manipulates:
`logging.root.handlers`, the hooks registered with
`Initializer.get().register` (by queue id), the hooks registered with
`atexit.register` (by the queue id of the listener they stop), the started
listeners, and a counter supplying the id of the next fresh `Queue()`.
Hook and listener lists hold the most recently added element first. -/
structure SubsystemState where
  handlers : List Handler
  registeredInitHooks : List Nat
  atexitHooks : List Nat
  listeners : List Listener
  nextQueueId : Nat
deriving DecidableEq, Repr

/-- The state of a process before any logging setup. -/
def emptySubsystem : SubsystemState :=
  { handlers := [], registeredInitHooks := [], atexitHooks := [],
    listeners := [], nextQueueId := 0 }

/-- The externally visible actions `initialize` performs, in the order it
performs them. -/
inductive InitStep where
  | createQueue (queueId : Nat)
  | registerInitHook (queueId : Nat)
  | installHandler (queueId : Nat)
  | registerAtexitHook (queueId : Nat)
  | startListener (queueId : Nat)
deriving DecidableEq, Repr

/-- `initialize(level)`, line by line, returning the new state and the
trace of actions in execution order:
`queue = Queue()`;
`Initializer.get().register(install_queue_handler, queue)`;
`install_queue_handler(queue)`;
`listener = QueueListener(queue, LogDumpHandler(level))` — the single
positional argument `level` is bound to `LogDumpHandler.__init__`'s first
parameter `instance`, and the `level` parameter keeps its default
`logging.NOTSET`;
`atexit.register(listener.stop)`;
`listener.start()`. -/
def initializeState (level : Int) (st : SubsystemState) :
    SubsystemState × List InitStep :=
  let q := st.nextQueueId
  let st1 : SubsystemState := { st with nextQueueId := st.nextQueueId + 1 }
  let tr1 := [InitStep.createQueue q]
  let st2 : SubsystemState :=
    { st1 with registeredInitHooks := q :: st1.registeredInitHooks }
  let tr2 := tr1 ++ [InitStep.registerInitHook q]
  let st3 : SubsystemState :=
    { st2 with handlers := install_queue_handler q st2.handlers }
  let tr3 := tr2 ++ [InitStep.installHandler q]
  let listener : Listener :=
    { queueId := q, handler := LogDumpHandler.make (PyVal.intVal level) NOTSET }
  let st4 : SubsystemState := { st3 with atexitHooks := q :: st3.atexitHooks }
  let tr4 := tr3 ++ [InitStep.registerAtexitHook q]
  let st5 : SubsystemState := { st4 with listeners := listener :: st4.listeners }
  let tr5 := tr4 ++ [InitStep.startListener q]
  (st5, tr5)

/-- A concrete queue-id sequence used to evaluate closed statements. -/
def qseqSample : Nat → Nat := fun _ => 7

lemma any_false_iff_countAM_eq_zero :
    ∀ hs : List Handler,
      (hs.any Handler.isAMQueueHandler = false ↔ countAM hs = 0)
  | [] => by simp [countAM]
  | h :: hs => by
    cases hh : Handler.isAMQueueHandler h <;>
      simp [countAM, hh, List.filter_cons,
        (any_false_iff_countAM_eq_zero hs).symm]

lemma install_of_present (q : Nat) (hs : List Handler)
    (h : hs.any Handler.isAMQueueHandler = true) :
    install_queue_handler q hs = hs := by
  simp [install_queue_handler, h]

lemma install_of_absent (q : Nat) (hs : List Handler)
    (h : hs.any Handler.isAMQueueHandler = false) :
    install_queue_handler q hs = Handler.amQueue q :: hs := by
  simp [install_queue_handler, h]

lemma any_install (q : Nat) (hs : List Handler) :
    (install_queue_handler q hs).any Handler.isAMQueueHandler = true := by
  cases hany : hs.any Handler.isAMQueueHandler
  · rw [install_of_absent q hs hany]
    simp [Handler.isAMQueueHandler]
  · rw [install_of_present q hs hany]
    exact hany

lemma countAM_install_eq_one (q : Nat) (hs : List Handler)
    (h : countAM hs ≤ 1) : countAM (install_queue_handler q hs) = 1 := by
  cases hany : hs.any Handler.isAMQueueHandler
  · rw [install_of_absent q hs hany]
    have h0 : countAM hs = 0 := (any_false_iff_countAM_eq_zero hs).mp hany
    simp [countAM, List.filter_cons, Handler.isAMQueueHandler] at h0 ⊢
    simpa [countAM] using h0
  · rw [install_of_present q hs hany]
    have h0 : countAM hs ≠ 0 := by
      intro hz
      rw [(any_false_iff_countAM_eq_zero hs).mpr hz] at hany
      cases hany
    omega

lemma installN_of_count_one (qseq : Nat → Nat) (n : Nat) :
    ∀ hs : List Handler, countAM hs = 1 → installN qseq n hs = hs := by
  induction n with
  | zero => intro hs _; rfl
  | succ k ih =>
    intro hs h1
    have hany : hs.any Handler.isAMQueueHandler = true := by
      cases hany : hs.any Handler.isAMQueueHandler
      · rw [(any_false_iff_countAM_eq_zero hs).mp hany] at h1; cases h1
      · rfl
    show installN qseq k (install_queue_handler (qseq k) hs) = hs
    rw [install_of_present (qseq k) hs hany]
    exact ih hs h1

/-- Claim C2 (counterexample): with a starting handler list already holding
two `AMQueueHandler`s, one call to `install_queue_handler` (N = 1) leaves
two of them, not exactly one, refuting the claim's quantification over
every starting handler list. -/
theorem C2_counterexample_two_preexisting :
    countAM (installN qseqSample 1 [Handler.amQueue 0, Handler.amQueue 1])
      ≠ 1 := by decide

/-- Claim C2 (amended): for every starting handler list holding at most one
`AMQueueHandler` and every N ≥ 1, calling `install_queue_handler` N times,
with any queues, leaves exactly one `AMQueueHandler` in the list; and every
call that finds an `AMQueueHandler` present (checked by isinstance, not
identity) changes nothing. -/
theorem C2_install_idempotent_from_clean (qseq : Nat → Nat) (n : Nat)
    (hs : List Handler) (hcount : countAM hs ≤ 1) (hn : 1 ≤ n) :
    countAM (installN qseq n hs) = 1 ∧
    ∀ q hs2, hs2.any Handler.isAMQueueHandler = true →
      install_queue_handler q hs2 = hs2 := by
  constructor
  · obtain ⟨k, rfl⟩ : ∃ k, n = k + 1 := ⟨n - 1, by omega⟩
    have h1 : countAM (install_queue_handler (qseq k) hs) = 1 :=
      countAM_install_eq_one (qseq k) hs hcount
    show countAM (installN qseq k (install_queue_handler (qseq k) hs)) = 1
    rw [installN_of_count_one qseq k _ h1]
    exact h1
  · exact fun q hs2 h => install_of_present q hs2 h

/-- Witness for C2's amended theorem at a concrete clean starting list. -/
theorem C2_install_idempotent_from_clean_witness :
    countAM (installN qseqSample 3 [Handler.other 0]) = 1 :=
  (C2_install_idempotent_from_clean qseqSample 3 [Handler.other 0]
    (by decide) (by decide)).1

/-- Claim C7: when no `AMQueueHandler` is present, `install_queue_handler`
puts the new `AMQueueHandler` at index 0 and keeps every previous handler
unchanged, in order, after it; when one is present, the handler list is
entirely unchanged. -/
theorem C7_install_frame (q : Nat) (hs : List Handler) :
    ((hs.any Handler.isAMQueueHandler) = false →
      install_queue_handler q hs = Handler.amQueue q :: hs) ∧
    ((hs.any Handler.isAMQueueHandler) = true →
      install_queue_handler q hs = hs) :=
  ⟨install_of_absent q hs, install_of_present q hs⟩

/-- Witness for C7 at concrete handler lists, one per branch. -/
theorem C7_install_frame_witness :
    install_queue_handler 5 [Handler.other 3]
      = [Handler.amQueue 5, Handler.other 3] ∧
    install_queue_handler 5 [Handler.amQueue 1] = [Handler.amQueue 1] :=
  ⟨(C7_install_frame 5 [Handler.other 3]).1 (by decide),
   (C7_install_frame 5 [Handler.amQueue 1]).2 (by decide)⟩

/-- Claim C4 (counterexample): a second call to `initialize` is not a
no-op: starting from a fresh process, calling it twice yields a different
subsystem state than calling it once. -/
theorem C4_counterexample_second_call_changes_state :
    (initializeState 0 (initializeState 0 emptySubsystem).1).1
      ≠ (initializeState 0 emptySubsystem).1 := by decide

/-- Claim C4 (amended): a second call to `initialize` leaves
`logging.root.handlers` unchanged (its `install_queue_handler` finds the
`AMQueueHandler` installed by the first call), but it creates a fresh
queue and registers one more process-creation hook, starts one more
listener, and registers one more atexit hook. -/
theorem C4_second_call_effects (lvl1 lvl2 : Int) (st : SubsystemState) :
    (initializeState lvl2 (initializeState lvl1 st).1).1.handlers
      = (initializeState lvl1 st).1.handlers ∧
    (initializeState lvl2 (initializeState lvl1 st).1).1.listeners.length
      = (initializeState lvl1 st).1.listeners.length + 1 ∧
    (initializeState lvl2 (initializeState lvl1 st).1).1.registeredInitHooks.length
      = (initializeState lvl1 st).1.registeredInitHooks.length + 1 ∧
    (initializeState lvl2 (initializeState lvl1 st).1).1.atexitHooks.length
      = (initializeState lvl1 st).1.atexitHooks.length + 1 := by
  refine ⟨?_, rfl, rfl, rfl⟩
  show install_queue_handler (st.nextQueueId + 1)
      (install_queue_handler st.nextQueueId st.handlers)
    = install_queue_handler st.nextQueueId st.handlers
  exact install_of_present _ _ (any_install st.nextQueueId st.handlers)

/-- Claim C5 (counterexample): the action trace of `initialize` is not the
claimed one in which the listener is started before the shutdown hook is
registered. -/
theorem C5_counterexample_atexit_before_start :
    (initializeState 0 emptySubsystem).2
      ≠ [InitStep.createQueue 0, InitStep.registerInitHook 0,
         InitStep.installHandler 0, InitStep.startListener 0,
         InitStep.registerAtexitHook 0] := by decide

/-- Claim C5 (amended): `initialize` performs, in this order: create the
queue; register the process-creation hook; install the queue handler in
the current process; register the atexit shutdown hook that stops the
listener; start the listener bound to the queue. -/
theorem C5_action_order (level : Int) (st : SubsystemState) :
    (initializeState level st).2
      = [InitStep.createQueue st.nextQueueId,
         InitStep.registerInitHook st.nextQueueId,
         InitStep.installHandler st.nextQueueId,
         InitStep.registerAtexitHook st.nextQueueId,
         InitStep.startListener st.nextQueueId] := rfl

/-- Claim C1 (code bug evaluation): the listener that `initialize(0)`
starts holds a `LogDumpHandler` whose `instance` attribute is the int `0`,
so draining a queue holding one record raises `AttributeError` at
`self.instance.log` and the record is never appended to any sink. -/
theorem C1_no_delivery_from_initialized_listener :
    ((initializeState 0 emptySubsystem).1.listeners.head?.map
      (fun l => QueueListener.drain formatSample l.handler.inst
        [{ levelno := 20, created := 0, name := "main", msg := "hello" }]))
    = some (Except.error "AttributeError: int object has no attribute log") :=
  rfl

/-- Claim C3 (code bug evaluation): formatting a fresh `LogTimeStamp`
twice with the same configured pattern takes the recomputing branch both
times, and the cached pattern `_cache_key` is still `None` afterwards —
the cache comparison can never succeed because `__str__` never assigns
`_cache_key`. -/
theorem C3_cache_never_hits :
    ((LogTimeStamp.str strftimeSample "fmtA" (LogTimeStamp.make 0)).2.2
      = true) ∧
    ((LogTimeStamp.str strftimeSample "fmtA"
        (LogTimeStamp.str strftimeSample "fmtA" (LogTimeStamp.make 0)).2.1).2.2
      = true) ∧
    ((LogTimeStamp.str strftimeSample "fmtA"
        (LogTimeStamp.str strftimeSample "fmtA"
          (LogTimeStamp.make 0)).2.1).2.1.cache_key
      = none) :=
  ⟨rfl, rfl, rfl⟩

/-- Claim C6: for every handled record, `LogDumpHandler.emit` builds
exactly one `LogRecord` whose level is the record's `levelno`, whose
timestamp wraps the record's `created` instant, whose source is the
logger `name` and whose content is the formatted message; it appends that
record to the end of the sink and then fires exactly one notification
carrying the same record. -/
theorem C6_emit_appends_then_notifies (formatf : PyLogRecord → String)
    (i : Instance) (r : PyLogRecord) :
    ∃ lr : LogRecord,
      (LogDumpHandler.emitRecord formatf i r).2
        = [SinkOp.append lr, SinkOp.notify lr] ∧
      lr.level = r.levelno ∧ lr.timestamp.ts = r.created ∧
      lr.source = r.name ∧ lr.content = formatf r ∧
      (LogDumpHandler.emitRecord formatf i r).1.log = i.log ++ [lr] ∧
      (LogDumpHandler.emitRecord formatf i r).1.notifications
        = i.notifications ++ [lr] :=
  ⟨LogRecord.make r.levelno r.created r.name (formatf r),
    rfl, rfl, rfl, rfl, rfl, rfl, rfl⟩

/-- Claim C8: no subsystem operation mutates a constructed record's
level, source, content or underlying instant: `__str__` leaves the
instant and the cached pattern untouched (only the cached string may
change), and `emit` only appends a new record, leaving every existing
sink record exactly as it was. -/
theorem C8_records_immutable (strftime : Nat → String → String)
    (fmt : String) (t : LogTimeStamp) (formatf : PyLogRecord → String)
    (i : Instance) (r : PyLogRecord) :
    (LogTimeStamp.str strftime fmt t).2.1.ts = t.ts ∧
    (LogTimeStamp.str strftime fmt t).2.1.cache_key = t.cache_key ∧
    ∃ lr, (LogDumpHandler.emitRecord formatf i r).1.log = i.log ++ [lr] ∧
      (LogDumpHandler.emitRecord formatf i r).1.notifications
        = i.notifications ++ [lr] := by
  refine ⟨?_, ?_,
    ⟨LogRecord.make r.levelno r.created r.name (formatf r), rfl, rfl⟩⟩
  · unfold LogTimeStamp.str
    split <;> rfl
  · unfold LogTimeStamp.str
    split <;> rfl

lemma strRuns_fresh (strftime : Nat → String → String) :
    ∀ (fmts : List String) (t : LogTimeStamp), t.cache_key = none →
      (LogTimeStamp.strRuns strftime t fmts).1
        = fmts.map (fun f => some (strftime t.ts f)) ∧
      (LogTimeStamp.strRuns strftime t fmts).2.cache_key = none ∧
      (LogTimeStamp.strRuns strftime t fmts).2.ts = t.ts := by
  intro fmts
  induction fmts with
  | nil => exact fun t h => ⟨rfl, h, rfl⟩
  | cons fmt fmts ih =>
    intro t h
    have hcond : some fmt ≠ t.cache_key := by
      rw [h]; exact Option.some_ne_none fmt
    have hstr : LogTimeStamp.str strftime fmt t
        = (some (strftime t.ts fmt),
           { t with cache_str := some (strftime t.ts fmt) }, true) := by
      unfold LogTimeStamp.str
      rw [if_pos hcond]
    have ih2 := ih { t with cache_str := some (strftime t.ts fmt) } h
    simp only [LogTimeStamp.strRuns, hstr]
    exact ⟨by rw [ih2.1]; rfl, ih2.2.1, ih2.2.2⟩

/-- Claim C9: across any sequence of `__str__` calls on one timestamp,
each call returns exactly the cache-free `strftime` of the stored instant
against the pattern configured at that call — the cache never yields a
stale string, because `_cache_key` is never written after construction. -/
theorem C9_never_stale (strftime : Nat → String → String) (u : Nat)
    (fmts : List String) :
    (LogTimeStamp.strRuns strftime (LogTimeStamp.make u) fmts).1
      = fmts.map (fun f => some (strftime u f)) :=
  (strRuns_fresh strftime fmts (LogTimeStamp.make u) rfl).1

/-- Claim C10: the handler that `initialize(level)` hands to its
`QueueListener` binds the `level` argument to the handler's `instance`
parameter and keeps the handler's own threshold at the default `NOTSET`;
with the listener's default `respect_handler_level = False`, every record
is processed regardless of severity, so `level` never filters records. -/
theorem C10_level_is_not_a_filter (level : Int) (st : SubsystemState) :
    ∃ l : Listener,
      (initializeState level st).1.listeners.head? = some l ∧
      l.handler.inst = PyVal.intVal level ∧
      l.handler.level = NOTSET ∧
      ∀ r : PyLogRecord, queueListenerProcesses l.handler r = true :=
  ⟨{ queueId := st.nextQueueId,
     handler := LogDumpHandler.make (PyVal.intVal level) NOTSET },
    rfl, rfl, rfl, fun _ => rfl⟩
